/-
Verification of the retrieval-augmented document question-answering pipeline
(backend/core/processing.py, backend/main.py) against its design specification.

The pipeline is shallowly embedded: external capabilities (HTTP fetch, PDF
text extraction, the language-model call, the embedding-based retriever) are
oracles passed in as functions, Python exceptions become an explicit error
type threaded through Except, and the mutable DocumentProcessor instance
becomes explicit state passing.
-/
import Mathlib

namespace Pipeline

/-- Python exceptions that flow through the pipeline.  The source raises
ValueError for both download and parse failures (processing.py lines 46-49)
and for a missing vector store (line 66); everything else escaping a call
boundary is some other exception class, carried by externalError.  The
emptyIndexError constructor realises the spec taxonomy's EmptyIndexError,
raised by the (externally implemented) index build on zero chunks. -/
inductive PyErr where
  | valueError (msg : String)
  | emptyIndexError (msg : String)
  | externalError (msg : String)
deriving DecidableEq, Repr

deriving instance DecidableEq for Except

/-- Python exception class name of an error, as seen by an except clause
(main.py lines 62-66 distinguish handlers only by this class). -/
def exc_class : PyErr → String
  | PyErr.valueError _ => "ValueError"
  | PyErr.emptyIndexError _ => "EmptyIndexError"
  | PyErr.externalError _ => "Exception"

/-- Raw document bytes, as returned by requests.get(url).content. -/
abbrev Bytes := List Nat

/-- FAISS vector store contents: the indexed chunks, in insertion order.
Embeddings are attached deterministically by the embedding model, so the
chunk list determines the store. -/
abbrev VectorStore := List (List Char)

/-- The processor that owns the LLM handle, the retriever behaviour and the
(initially absent) vector_store attribute (processing.py lines 13-19; the
attribute is only created by assignment in create_vector_store, so it is
modelled as an Option, none meaning the attribute does not exist and
hasattr is false). The llm and retrieve fields are oracles for the external
ChatGroq call and the embedding-plus-FAISS similarity search. -/
structure DocumentProcessor where
  llm : String → Except PyErr String
  retrieve : VectorStore → String → List (List Char)
  vector_store : Option VectorStore := none

/-- The fixed fallback answer named by the prompt (processing.py line 26). -/
def sentinel : String := "Information not found in the document."

/-- The prompt template of processing.py lines 23-34, with the context and
input holes filled; the sentinel instruction is part of the static text. -/
def prompt_template (context input : String) : String :=
  "Answer the user's question accurately and concisely based ONLY on the following context.\n            If the information is not in the context, say \"" ++
    sentinel ++
    "\"\n            \n            Context:\n            " ++
    context ++
    "\n            \n            Question:\n            " ++
    input ++
    "\n            "

/-- DocumentProcessor._load_and_extract_text (processing.py lines 36-49).
The fetch oracle models requests.get plus raise_for_status: its error is a
requests.RequestException message (network failure or non-success status).
The parsePdf oracle models pypdf.PdfReader plus per-page extract_text: it
returns the page texts in page order, or the message of whatever exception
pypdf raised on invalid input.  Both failure branches re-raise ValueError
with the corresponding message prefix. -/
def load_and_extract_text (fetch : String → Except String Bytes)
    (parsePdf : Bytes → Except String (List (List Char)))
    (url : String) : Except PyErr (List Char) :=
  match fetch url with
  | Except.error e => Except.error (PyErr.valueError ("Failed to download document: " ++ e))
  | Except.ok content =>
    match parsePdf content with
    | Except.error e => Except.error (PyErr.valueError ("Failed to parse PDF: " ++ e))
    | Except.ok pages => Except.ok pages.flatten

/-- Chunk size passed to the splitter (processing.py line 57). -/
def chunk_size : Nat := 1000

/-- Chunk overlap passed to the splitter (processing.py line 57). -/
def chunk_overlap : Nat := 100

/-- Recursion core of the splitter.  The fuel argument only forces
structural recursion: every recursive step consumes at least one character,
so a fuel of the input length never runs out (split_text_go_fuel below). -/
def split_text_go (fuel : Nat) (s : List Char) : List (List Char) :=
  match fuel, s with
  | _, [] => []
  | 0, s => [s]
  | fuel + 1, s =>
    if s.length ≤ chunk_size then [s]
    else s.take chunk_size :: split_text_go fuel (s.drop (chunk_size - chunk_overlap))

/-- Modelled from the spec: the text splitter (langchain
RecursiveCharacterTextSplitter, absent from src/, invoked at processing.py
line 58 with chunk_size 1000 and chunk_overlap 100).  Spec section 4.2: the
output is an ordered sequence of chunks covering the input with the given
overlap, empty input produces zero chunks, and input shorter than one chunk
produces exactly one chunk.  Each chunk starts chunk_size - chunk_overlap
characters after its predecessor, so consecutive chunks share a
chunk_overlap-character overlap. -/
def split_text (s : List Char) : List (List Char) :=
  split_text_go s.length s

/-- Modelled from the spec: the vector-index build (langchain
FAISS.from_texts, absent from src/, invoked at processing.py line 61).
Spec section 7 assigns EmptyIndexError to a build on an empty document; on
nonempty chunks the build embeds each chunk and indexes the pairs, which the
chunk list determines. -/
def FAISS_from_texts (chunks : List (List Char)) : Except PyErr VectorStore :=
  if chunks.isEmpty then
    Except.error (PyErr.emptyIndexError "cannot build a vector index from zero chunks")
  else Except.ok chunks

/-- DocumentProcessor.create_vector_store (processing.py lines 51-61):
extract the text, split it into chunks, build the FAISS store and assign it
to the vector_store attribute.  Any failure propagates before the
assignment, leaving the attribute unchanged. -/
def create_vector_store (fetch : String → Except String Bytes)
    (parsePdf : Bytes → Except String (List (List Char)))
    (p : DocumentProcessor) (document_url : String) :
    Except PyErr DocumentProcessor :=
  match load_and_extract_text fetch parsePdf document_url with
  | Except.error e => Except.error e
  | Except.ok raw_text =>
    let chunks := split_text raw_text
    match FAISS_from_texts chunks with
    | Except.error e => Except.error e
    | Except.ok vs => Except.ok { p with vector_store := some vs }

/-- Concatenation of the retrieved context documents into the prompt's
context slot, as the stuff-documents chain does. -/
def context_string (docs : List (List Char)) : String :=
  String.intercalate "\n\n" (docs.map fun d => String.mk d)

/-- Modelled from the spec: the retrieval chain (langchain
create_stuff_documents_chain plus create_retrieval_chain, absent from src/,
built at processing.py lines 70-71 from the processor's retriever, llm and
prompt).  Spec section 4.5: retrieve the context chunks for the question,
fill the prompt template with them, call the model, and return the model's
raw text response, unmodified. -/
def retrieval_chain (retrieve : VectorStore → String → List (List Char))
    (llm : String → Except PyErr String) (vs : VectorStore)
    (question : String) : Except PyErr String :=
  llm (prompt_template (context_string (retrieve vs question)) question)

/-- The question loop of processing.py lines 68-76: invoke the chain on each
question in order and append the raw answer; an exception from any
invocation propagates at once, discarding the accumulated list. -/
def answer_loop (chain : String → Except PyErr String) :
    List String → Except PyErr (List String)
  | [] => Except.ok []
  | q :: qs =>
    match chain q with
    | Except.error e => Except.error e
    | Except.ok a =>
      match answer_loop chain qs with
      | Except.error e => Except.error e
      | Except.ok as => Except.ok (a :: as)

/-- DocumentProcessor.answer_questions (processing.py lines 63-78): raise
ValueError if the vector_store attribute was never created, otherwise build
the retrieval chain over the current store and answer each question in
order. -/
def answer_questions (p : DocumentProcessor) (questions : List String) :
    Except PyErr (List String) :=
  match p.vector_store with
  | none =>
    Except.error (PyErr.valueError "Vector store not created. Call create_vector_store first.")
  | some vs => answer_loop (retrieval_chain p.retrieve p.llm vs) questions

/-- The core of run_submission (main.py lines 51-60): build the vector
store for this request on the shared processor, then answer the questions
against it.  Returns the updated processor together with the answers; any
exception from either step aborts the request with no answers. -/
def process (fetch : String → Except String Bytes)
    (parsePdf : Bytes → Except String (List (List Char)))
    (p : DocumentProcessor) (document_url : String) (questions : List String) :
    Except PyErr (DocumentProcessor × List String) :=
  match create_vector_store fetch parsePdf p document_url with
  | Except.error e => Except.error e
  | Except.ok p1 =>
    match answer_questions p1 questions with
    | Except.error e => Except.error e
    | Except.ok answers => Except.ok (p1, answers)

/-- One request-level operation on the shared doc_processor singleton
(main.py line 38): a build phase for some document URL, or an answer phase
for some question list.  Interleavings of concurrent requests are traces of
these operations. -/
inductive Op where
  | build (url : String)
  | answer (questions : List String)

/-- Effect of one operation on the shared processor state: a successful
build replaces the vector_store attribute, a failed build raises out of the
request and leaves the attribute unchanged, and an answer phase never
writes the attribute. -/
def step (fetch : String → Except String Bytes)
    (parsePdf : Bytes → Except String (List (List Char)))
    (p : DocumentProcessor) : Op → DocumentProcessor
  | Op.build url =>
    match create_vector_store fetch parsePdf p url with
    | Except.ok p1 => p1
    | Except.error _ => p
  | Op.answer _ => p

/-- State of the shared processor after a trace of request operations. -/
def run (fetch : String → Except String Bytes)
    (parsePdf : Bytes → Except String (List (List Char)))
    (p : DocumentProcessor) : List Op → DocumentProcessor
  | [] => p
  | op :: ops => run fetch parsePdf (step fetch parsePdf p op) ops

/-- Holds when every build operation in the trace fails at the state it
executes in. -/
def all_builds_failed (fetch : String → Except String Bytes)
    (parsePdf : Bytes → Except String (List (List Char)))
    (p : DocumentProcessor) : List Op → Prop
  | [] => True
  | op :: ops =>
    (∀ url p1, op = Op.build url →
      create_vector_store fetch parsePdf p url ≠ Except.ok p1) ∧
    all_builds_failed fetch parsePdf (step fetch parsePdf p op) ops

/-- Chunks with the leading overlap of every chunk after the first removed,
ready for concatenation. -/
def strip_overlaps : List (List Char) → List (List Char)
  | [] => []
  | c :: cs => c :: cs.map fun d => d.drop chunk_overlap

/-- Concatenation of the chunks after stripping the overlap regions. -/
def reconstruct (cs : List (List Char)) : List Char :=
  (strip_overlaps cs).flatten

/-- Stub fetch oracle that succeeds, returning the url's bytes. -/
def fetch_ok : String → Except String Bytes :=
  fun url => Except.ok (url.toList.map Char.toNat)

/-- Stub fetch oracle whose network call fails. -/
def fetch_down : String → Except String Bytes :=
  fun _ => Except.error "connection refused"

/-- Stub parser that succeeds with a single page decoding the bytes. -/
def parse_echo : Bytes → Except String (List (List Char)) :=
  fun bs => Except.ok [bs.map Char.ofNat]

/-- Stub parser that rejects its input as not a PDF. -/
def parse_bad : Bytes → Except String (List (List Char)) :=
  fun _ => Except.error "invalid pdf"

/-- Stub parser returning a fixed two-page document. -/
def parse_doc : Bytes → Except String (List (List Char)) :=
  fun _ => Except.ok [['d', 'o'], ['c']]

/-- Stub parser whose extracted text depends on the byte count, so that
different fetched documents yield different chunk contents. -/
def parse_by_len : Bytes → Except String (List (List Char)) :=
  fun bs => Except.ok [if bs.length = 1 then ['a'] else ['b']]

/-- Stub parser returning a two-page document with no extractable text. -/
def parse_empty : Bytes → Except String (List (List Char)) :=
  fun _ => Except.ok [[], []]

/-- Stub model call echoing its prompt. -/
def llm_echo : String → Except PyErr String := fun s => Except.ok s

/-- Stub model call returning empty output. -/
def llm_empty : String → Except PyErr String := fun _ => Except.ok ""

/-- Stub model call that fails. -/
def llm_down : String → Except PyErr String :=
  fun _ => Except.error (PyErr.externalError "model unavailable")

/-- Stub retriever returning the whole store as context. -/
def retrieve_all : VectorStore → String → List (List Char) := fun vs _ => vs

/-- Fresh shared processor as initialised once at main.py line 38. -/
def p0 : DocumentProcessor :=
  { llm := llm_echo, retrieve := retrieve_all, vector_store := none }

/-- Processor whose model returns empty output, with a one-chunk store. -/
def p_empty_llm : DocumentProcessor :=
  { llm := llm_empty, retrieve := retrieve_all, vector_store := some [['d']] }

/-- Fresh processor whose model call always fails. -/
def p_down : DocumentProcessor :=
  { llm := llm_down, retrieve := retrieve_all, vector_store := none }

/-- Fuel irrelevance: any fuel at least the input length gives the same
chunks, because each recursive step consumes at least one character. -/
theorem split_text_go_fuel (f1 : Nat) :
    ∀ (f2 : Nat) (s : List Char), s.length ≤ f1 → s.length ≤ f2 →
      split_text_go f1 s = split_text_go f2 s := by
  induction f1 with
  | zero =>
    intro f2 s h1 h2
    have hs : s = [] := List.eq_nil_of_length_eq_zero (Nat.le_zero.mp h1)
    subst hs
    cases f2 <;> rfl
  | succ f ih =>
    intro f2 s h1 h2
    cases s with
    | nil => cases f2 <;> rfl
    | cons c cs =>
      cases f2 with
      | zero =>
        simp only [List.length_cons] at h2
        omega
      | succ f2 =>
        simp only [split_text_go]
        by_cases hlen : cs.length + 1 ≤ chunk_size
        · simp [hlen]
        · simp only [List.length_cons, hlen, if_neg, if_false, List.cons.injEq, true_and]
          apply ih
          · simp only [List.length_drop, List.length_cons, chunk_size,
              chunk_overlap] at *
            omega
          · simp only [List.length_drop, List.length_cons, chunk_size,
              chunk_overlap] at *
            omega

/-- Unfolding equation of the splitter, independent of the fuel. -/
theorem split_text_eq (s : List Char) :
    split_text s =
      if s.length = 0 then []
      else if s.length ≤ chunk_size then [s]
      else s.take chunk_size :: split_text (s.drop (chunk_size - chunk_overlap)) := by
  cases s with
  | nil => rfl
  | cons c cs =>
    simp only [split_text, List.length_cons, split_text_go]
    rw [if_neg (show ¬ (cs.length + 1 = 0) by omega)]
    by_cases hlen : cs.length + 1 ≤ chunk_size
    · simp [hlen]
    · simp only [List.length_cons, hlen, if_neg, if_false, List.cons.injEq, true_and]
      apply split_text_go_fuel
      · simp only [List.length_drop, List.length_cons, chunk_size,
          chunk_overlap] at *
        omega
      · simp only [List.length_drop, List.length_cons]
        omega

/-- Dropping the overlap from every chunk and concatenating yields the text
with its first overlap region removed. -/
theorem split_text_flatten_drop (s : List Char) :
    ((split_text s).map (fun c => c.drop chunk_overlap)).flatten =
      s.drop chunk_overlap := by
  rw [split_text_eq]
  by_cases h0 : s.length = 0
  · rw [List.length_eq_zero] at h0
    subst h0
    simp
  · by_cases h1 : s.length ≤ chunk_size
    · simp [h0, h1]
    · simp only [h0, h1, if_false, if_neg, List.map_cons, List.flatten_cons]
      rw [split_text_flatten_drop (s.drop (chunk_size - chunk_overlap))]
      simp only [chunk_size, chunk_overlap] at *
      rw [List.drop_take, List.drop_drop]
      rw [show (1000 - 100 + 100 : Nat) = 100 + 900 from rfl, ← List.drop_drop]
      exact List.take_append_drop 900 (s.drop 100)
termination_by s.length
decreasing_by
  simp only [List.length_drop, chunk_size, chunk_overlap] at *
  omega

/-- Every chunk produced by the splitter is nonempty. -/
theorem split_text_chunks_ne_nil (s : List Char) :
    ∀ c ∈ split_text s, c ≠ [] := by
  rw [split_text_eq]
  by_cases h0 : s.length = 0
  · simp [h0]
  · by_cases h1 : s.length ≤ chunk_size
    · simp only [h0, h1, if_false, if_true, if_neg, if_pos, List.mem_singleton]
      intro c hc
      subst hc
      intro hnil
      subst hnil
      simp at h0
    · simp only [h0, h1, if_false, if_neg, List.mem_cons]
      intro c hc
      rcases hc with hc | hc
      · subst hc
        intro hnil
        have := congrArg List.length hnil
        simp only [List.length_take, List.length_nil, chunk_size] at this
        omega
      · exact split_text_chunks_ne_nil (s.drop (chunk_size - chunk_overlap)) c hc
termination_by s.length
decreasing_by
  simp only [List.length_drop, chunk_size, chunk_overlap] at *
  omega

/-- C5: for every nonempty input text, stripping the overlap regions from
the chunks and concatenating the remainders in sequence order reconstructs
the input exactly, and no chunk is empty. -/
theorem c5_chunker_reconstructs (s : List Char) (hs : s ≠ []) :
    reconstruct (split_text s) = s ∧ ∀ c ∈ split_text s, c ≠ [] := by
  refine ⟨?_, split_text_chunks_ne_nil s⟩
  have h0 : ¬ s.length = 0 := by
    intro h
    exact hs (List.length_eq_zero.mp h)
  rw [split_text_eq]
  by_cases h1 : s.length ≤ chunk_size
  · simp [h0, h1, reconstruct, strip_overlaps]
  · simp only [h0, h1, if_false, if_neg, reconstruct, strip_overlaps,
      List.flatten_cons]
    rw [split_text_flatten_drop (s.drop (chunk_size - chunk_overlap))]
    simp only [chunk_size, chunk_overlap] at *
    rw [List.drop_drop]
    rw [show (1000 - 100 + 100 : Nat) = 1000 from rfl]
    exact List.take_append_drop 1000 s

/-- Witness for C5 at a concrete two-character text. -/
theorem c5_chunker_reconstructs_witness :
    reconstruct (split_text ['a', 'b']) = ['a', 'b'] ∧
      ∀ c ∈ split_text ['a', 'b'], c ≠ [] :=
  c5_chunker_reconstructs ['a', 'b'] (by decide)

/-- C8: an input shorter than the chunk size of 1000 characters yields
exactly one chunk, and the empty input yields zero chunks. -/
theorem c8_short_input_single_chunk :
    (∀ s : List Char, s ≠ [] → s.length < chunk_size → split_text s = [s]) ∧
      split_text [] = [] := by
  constructor
  · intro s hs hlen
    rw [split_text_eq]
    have h0 : ¬ s.length = 0 := by
      intro h
      exact hs (List.length_eq_zero.mp h)
    have h1 : s.length ≤ chunk_size := Nat.le_of_lt hlen
    simp [h0, h1]
  · rw [split_text_eq]
    simp

/-- Witness for C8 at a one-character text. -/
theorem c8_short_input_single_chunk_witness :
    split_text ['a'] = [['a']] ∧ split_text [] = [] :=
  ⟨c8_short_input_single_chunk.1 ['a'] (by decide) (by decide),
    c8_short_input_single_chunk.2⟩

/-- A successful answer loop returns one answer per question, positionally
aligned with the questions. -/
theorem answer_loop_ok (chain : String → Except PyErr String)
    (qs as : List String) (h : answer_loop chain qs = Except.ok as) :
    as.length = qs.length ∧
      ∀ i (h1 : i < qs.length) (h2 : i < as.length),
        chain (qs.get ⟨i, h1⟩) = Except.ok (as.get ⟨i, h2⟩) := by
  induction qs generalizing as with
  | nil =>
    simp only [answer_loop, Except.ok.injEq] at h
    subst h
    exact ⟨rfl, fun i h1 h2 => absurd h1 (by simp)⟩
  | cons q qs ih =>
    cases hq : chain q with
    | error e =>
      simp only [answer_loop, hq] at h
      exact Except.noConfusion h
    | ok a =>
      cases hrec : answer_loop chain qs with
      | error e =>
        simp only [answer_loop, hq, hrec] at h
        exact Except.noConfusion h
      | ok as2 =>
        simp only [answer_loop, hq, hrec, Except.ok.injEq] at h
        subst h
        obtain ⟨hlen, hidx⟩ := ih as2 hrec
        refine ⟨by simp [hlen], ?_⟩
        intro i h1 h2
        cases i with
        | zero => simpa using hq
        | succ n =>
          have h1n : n < qs.length := by
            simp only [List.length_cons] at h1
            omega
          have h2n : n < as2.length := by
            simp only [List.length_cons] at h2
            omega
          simpa using hidx n h1n h2n

/-- An exception from any chain invocation propagates out of the loop at
once, discarding the answers accumulated so far. -/
theorem answer_loop_fail_fast (chain : String → Except PyErr String)
    (qs1 : List String) (q : String) (qs2 : List String) (e : PyErr)
    (h1 : ∀ x ∈ qs1, ∃ a, chain x = Except.ok a)
    (h2 : chain q = Except.error e) :
    answer_loop chain (qs1 ++ q :: qs2) = Except.error e := by
  induction qs1 with
  | nil => simp only [List.nil_append, answer_loop, h2]
  | cons x xs ih =>
    obtain ⟨a, ha⟩ := h1 x (by simp)
    have ih2 := ih fun y hy => h1 y (by simp [hy])
    simp [List.cons_append, answer_loop, ha, ih2]

/-- Characterisation of a successful build: extraction succeeded, its
chunking is nonempty, and the only change to the processor is the freshly
built vector_store attribute, computed from this document alone. -/
theorem create_vector_store_ok_iff (fetch : String → Except String Bytes)
    (parsePdf : Bytes → Except String (List (List Char)))
    (p p1 : DocumentProcessor) (url : String) :
    create_vector_store fetch parsePdf p url = Except.ok p1 ↔
      ∃ text, load_and_extract_text fetch parsePdf url = Except.ok text ∧
        split_text text ≠ [] ∧
        p1 = { p with vector_store := some (split_text text) } := by
  unfold create_vector_store
  cases hl : load_and_extract_text fetch parsePdf url with
  | error e => simp
  | ok t =>
    by_cases hc : (split_text t).isEmpty
    · have hc2 : split_text t = [] := by simpa using hc
      simp [hc2, FAISS_from_texts]
    · have hc2 : split_text t ≠ [] := by simpa using hc
      simp [FAISS_from_texts, hc, hc2]
      constructor
      · exact fun h => h.symm
      · exact fun h => h.symm

/-- C1: in every non-error run of process (create_vector_store followed by
answer_questions) the answers list has exactly the length of the questions
list, and the answer at position i is the one the retrieval chain generated
for the question at position i over the store built for this request. -/
theorem c1_process_aligned (fetch : String → Except String Bytes)
    (parsePdf : Bytes → Except String (List (List Char)))
    (p : DocumentProcessor) (url : String) (qs : List String)
    {p1 : DocumentProcessor} {as : List String}
    (h : process fetch parsePdf p url qs = Except.ok (p1, as)) :
    as.length = qs.length ∧
      ∃ vs, p1.vector_store = some vs ∧
        ∀ i (h1 : i < qs.length) (h2 : i < as.length),
          retrieval_chain p1.retrieve p1.llm vs (qs.get ⟨i, h1⟩) =
            Except.ok (as.get ⟨i, h2⟩) := by
  cases hc : create_vector_store fetch parsePdf p url with
  | error e => simp [process, hc] at h
  | ok p2 =>
    cases ha : answer_questions p2 qs with
    | error e => simp [process, hc, ha] at h
    | ok as2 =>
      simp only [process, hc, ha, Except.ok.injEq, Prod.mk.injEq] at h
      obtain ⟨hp, has⟩ := h
      subst hp
      subst has
      cases hvs : p2.vector_store with
      | none => simp [answer_questions, hvs] at ha
      | some vs =>
        simp only [answer_questions, hvs] at ha
        obtain ⟨hlen, hidx⟩ := answer_loop_ok _ qs as2 ha
        exact ⟨hlen, vs, rfl, hidx⟩

/-- Witness for C1: a concrete successful two-question run returns two
answers. -/
theorem c1_process_aligned_witness :
    ([prompt_template (context_string [['d', 'o', 'c']]) "q1",
      prompt_template (context_string [['d', 'o', 'c']]) "q2"] : List String).length =
      (["q1", "q2"] : List String).length :=
  (c1_process_aligned fetch_ok parse_doc p0 "u" ["q1", "q2"] rfl).1

/-- C6: if the generation chain fails on some question while all earlier
questions succeeded, the whole request fails with that error and no partial
answers list is returned. -/
theorem c6_fail_fast (fetch : String → Except String Bytes)
    (parsePdf : Bytes → Except String (List (List Char)))
    (p p1 : DocumentProcessor) (url : String) (vs : VectorStore)
    (qs1 : List String) (q : String) (qs2 : List String) (e : PyErr)
    (hc : create_vector_store fetch parsePdf p url = Except.ok p1)
    (hvs : p1.vector_store = some vs)
    (h1 : ∀ x ∈ qs1, ∃ a, retrieval_chain p1.retrieve p1.llm vs x = Except.ok a)
    (h2 : retrieval_chain p1.retrieve p1.llm vs q = Except.error e) :
    process fetch parsePdf p url (qs1 ++ q :: qs2) = Except.error e := by
  have ha : answer_questions p1 (qs1 ++ q :: qs2) = Except.error e := by
    simp only [answer_questions, hvs]
    exact answer_loop_fail_fast _ qs1 q qs2 e h1 h2
  simp only [process, hc, ha]

/-- Witness for C6: a concrete run whose model call fails on the first
question aborts the whole two-question request with that error. -/
theorem c6_fail_fast_witness :
    process fetch_ok parse_doc p_down "u" (([] : List String) ++ "q" :: ["r"]) =
      Except.error (PyErr.externalError "model unavailable") :=
  c6_fail_fast fetch_ok parse_doc p_down
    { p_down with vector_store := some [['d', 'o', 'c']] } "u" [['d', 'o', 'c']]
    [] "q" ["r"] (PyErr.externalError "model unavailable") rfl rfl
    (by intro x hx; exact absurd hx (by simp)) rfl

/-- C2 counterexample: with a model call that returns empty output, the
code appends the empty string as the answer; no sentinel is substituted, so
a question can yield an empty answer. -/
theorem c2_counterexample :
    answer_questions p_empty_llm ["q"] = Except.ok [""] ∧
      ("" : String) ≠ sentinel :=
  ⟨rfl, by decide⟩

/-- C2 amended: answer_questions appends the model's raw output unmodified,
so an empty model output yields an empty answer string (still exactly one
answer per question); a failing model call propagates its exception
untouched; and the sentinel occurs only inside the prompt text, as an
instruction asking the model itself to produce it. -/
theorem c2_amended_raw_output (p : DocumentProcessor) (vs : VectorStore)
    (q out : String) (e : PyErr) (hvs : p.vector_store = some vs) :
    (p.llm (prompt_template (context_string (p.retrieve vs q)) q) = Except.ok out →
      answer_questions p [q] = Except.ok [out]) ∧
    (p.llm (prompt_template (context_string (p.retrieve vs q)) q) = Except.error e →
      answer_questions p [q] = Except.error e) ∧
    (∀ c i, ∃ pre post, prompt_template c i = pre ++ (sentinel ++ post)) := by
  refine ⟨?_, ?_, ?_⟩
  · intro h
    simp [answer_questions, hvs, answer_loop, retrieval_chain, h]
  · intro h
    simp [answer_questions, hvs, answer_loop, retrieval_chain, h]
  · intro c i
    refine ⟨"Answer the user's question accurately and concisely based ONLY on the following context.\n            If the information is not in the context, say \"",
      "\"\n            \n            Context:\n            " ++ c ++
        "\n            \n            Question:\n            " ++ i ++
        "\n            ", ?_⟩
    simp [prompt_template, String.append_assoc]

/-- Witness for C2 amended: the empty raw model output becomes the answer
string for the question, unmodified. -/
theorem c2_amended_raw_output_witness :
    answer_questions p_empty_llm ["q"] = Except.ok [""] ∧
      sentinel = sentinel :=
  ⟨(c2_amended_raw_output p_empty_llm [['d']] "q" ""
      (PyErr.externalError "boom") rfl).1 rfl, rfl⟩

/-- C3 counterexample: a failed download and an unparsable document raise
errors of one and the same Python exception class, ValueError, so the
caller cannot tell the two failure kinds apart by exception type. -/
theorem c3_counterexample :
    load_and_extract_text fetch_down parse_doc "u" =
        Except.error (PyErr.valueError "Failed to download document: connection refused") ∧
      load_and_extract_text fetch_ok parse_bad "u" =
        Except.error (PyErr.valueError "Failed to parse PDF: invalid pdf") ∧
      exc_class (PyErr.valueError "Failed to download document: connection refused") =
        exc_class (PyErr.valueError "Failed to parse PDF: invalid pdf") :=
  ⟨rfl, rfl, rfl⟩

/-- C3 amended: network or non-success-status failures and parse failures
both raise ValueError; they are distinguishable only by their message
prefixes (Failed to download document vs Failed to parse PDF), not as
distinct typed error kinds. -/
theorem c3_amended_distinct_messages (fetch : String → Except String Bytes)
    (parsePdf : Bytes → Except String (List (List Char))) (url : String) :
    (∀ e, fetch url = Except.error e →
      load_and_extract_text fetch parsePdf url =
        Except.error (PyErr.valueError ("Failed to download document: " ++ e))) ∧
    (∀ bs e2, fetch url = Except.ok bs → parsePdf bs = Except.error e2 →
      load_and_extract_text fetch parsePdf url =
        Except.error (PyErr.valueError ("Failed to parse PDF: " ++ e2))) ∧
    (∀ m1 m2, exc_class (PyErr.valueError m1) = exc_class (PyErr.valueError m2)) := by
  refine ⟨?_, ?_, fun m1 m2 => rfl⟩
  · intro e he
    simp [load_and_extract_text, he]
  · intro bs e2 hb hp2
    simp [load_and_extract_text, hb, hp2]

/-- Witness for C3 amended at a concrete failing fetch. -/
theorem c3_amended_distinct_messages_witness :
    load_and_extract_text fetch_down parse_bad "u" =
      Except.error (PyErr.valueError ("Failed to download document: " ++ "connection refused")) :=
  (c3_amended_distinct_messages fetch_down parse_bad "u").1 "connection refused" rfl

/-- C4 counterexample: with an empty questions list and an unreachable
document, process raises the download error instead of returning the empty
answers list, so the build backend calls are made even when there is
nothing to answer. -/
theorem c4_counterexample :
    process fetch_down parse_doc p0 "u" [] =
      Except.error (PyErr.valueError "Failed to download document: connection refused") :=
  rfl

/-- C4 amended: on an empty questions list, process still performs the
whole build (document fetch, parse, chunking, index construction) and its
outcome is exactly the build's outcome; when the build succeeds the answers
list is empty and no generation call is made. -/
theorem c4_amended_build_still_runs (fetch : String → Except String Bytes)
    (parsePdf : Bytes → Except String (List (List Char)))
    (p : DocumentProcessor) (url : String) :
    process fetch parsePdf p url [] =
      (create_vector_store fetch parsePdf p url).map
        (fun p1 => (p1, ([] : List String))) := by
  cases hc : create_vector_store fetch parsePdf p url with
  | error e => simp [process, hc, Except.map]
  | ok p1 =>
    obtain ⟨t, hl, hne, hp1⟩ :=
      (create_vector_store_ok_iff fetch parsePdf p p1 url).mp hc
    subst hp1
    simp [process, hc, answer_questions, answer_loop, Except.map]

/-- C7 counterexample: querying before any successful build raises
ValueError (processing.py lines 65-66), whose exception class is not
EmptyIndexError, so the claimed error kind is wrong for this case. -/
theorem c7_counterexample :
    answer_questions p0 ["q"] =
        Except.error (PyErr.valueError
          "Vector store not created. Call create_vector_store first.") ∧
      exc_class (PyErr.valueError
          "Vector store not created. Call create_vector_store first.") ≠
        "EmptyIndexError" :=
  ⟨rfl, by decide⟩

/-- C7 amended: answering before any successful build raises the
missing-store ValueError (not an EmptyIndexError), and a document with
zero extractable text makes the whole request fail at the index build with
the EmptyIndexError kind, never silently returning empty answers. -/
theorem c7_empty_index_fails (fetch : String → Except String Bytes)
    (parsePdf : Bytes → Except String (List (List Char)))
    (p : DocumentProcessor) (url : String) (qs : List String)
    (bs : Bytes) (pages : List (List Char)) :
    (p.vector_store = none →
      answer_questions p qs =
        Except.error (PyErr.valueError
          "Vector store not created. Call create_vector_store first.")) ∧
    (fetch url = Except.ok bs → parsePdf bs = Except.ok pages →
      pages.flatten = [] →
      process fetch parsePdf p url qs =
        Except.error (PyErr.emptyIndexError
          "cannot build a vector index from zero chunks")) := by
  constructor
  · intro h
    simp [answer_questions, h]
  · intro hf hp2 hfl
    have hl : load_and_extract_text fetch parsePdf url = Except.ok ([] : List Char) := by
      simp [load_and_extract_text, hf, hp2, hfl]
    have hc : create_vector_store fetch parsePdf p url =
        Except.error (PyErr.emptyIndexError
          "cannot build a vector index from zero chunks") := by
      simp [create_vector_store, hl, FAISS_from_texts]
      rfl
    simp [process, hc]

/-- Witness for C7: a fresh processor rejects answering, and a document
whose pages carry no text fails the request at the build. -/
theorem c7_empty_index_fails_witness :
    answer_questions p0 ["q"] =
        Except.error (PyErr.valueError
          "Vector store not created. Call create_vector_store first.") ∧
      process fetch_ok parse_empty p0 "u" ["q"] =
        Except.error (PyErr.emptyIndexError
          "cannot build a vector index from zero chunks") :=
  ⟨(c7_empty_index_fails fetch_ok parse_empty p0 "u" ["q"]
      ("u".toList.map Char.toNat) [[], []]).1 rfl,
    (c7_empty_index_fails fetch_ok parse_empty p0 "u" ["q"]
      ("u".toList.map Char.toNat) [[], []]).2 rfl rfl rfl⟩

set_option maxRecDepth 8192 in
/-- C9 counterexample: two interleaved requests on the shared processor are
not independent.  After request A builds its index from document a, request
B's build for document bb overwrites the shared vector_store, and request
A's answer phase then produces the answers of document bb, not those of its
own document. -/
theorem c9_counterexample :
    answer_questions
        (step fetch_ok parse_by_len
          (step fetch_ok parse_by_len p0 (Op.build "a")) (Op.build "bb")) ["q"] ≠
      answer_questions (step fetch_ok parse_by_len p0 (Op.build "a")) ["q"] ∧
    answer_questions
        (step fetch_ok parse_by_len
          (step fetch_ok parse_by_len p0 (Op.build "a")) (Op.build "bb")) ["q"] =
      answer_questions (step fetch_ok parse_by_len p0 (Op.build "bb")) ["q"] :=
  ⟨by decide, rfl⟩

/-- C9 amended: every build computes its index from its own document alone
(the prior state of the shared processor does not influence it, and the
model and retriever handles are untouched), but the index is written into
the single shared processor state, which the build leaves behind for
whichever request answers next. -/
theorem c9_amended_shared_store (fetch : String → Except String Bytes)
    (parsePdf : Bytes → Except String (List (List Char)))
    (p p2 : DocumentProcessor) (url : String)
    {p1 p3 : DocumentProcessor}
    (h : create_vector_store fetch parsePdf p url = Except.ok p1)
    (h2 : create_vector_store fetch parsePdf p2 url = Except.ok p3) :
    p1.vector_store = p3.vector_store ∧
      p1.llm = p.llm ∧ p1.retrieve = p.retrieve ∧
      step fetch parsePdf p (Op.build url) = p1 := by
  obtain ⟨t, hl, hne, hp1⟩ :=
    (create_vector_store_ok_iff fetch parsePdf p p1 url).mp h
  obtain ⟨t2, hl2, hne2, hp3⟩ :=
    (create_vector_store_ok_iff fetch parsePdf p2 p3 url).mp h2
  have ht : t = t2 := by
    rw [hl] at hl2
    exact (Except.ok.injEq _ _).mp hl2
  subst ht
  subst hp1
  subst hp3
  exact ⟨rfl, rfl, rfl, by simp [step, h]⟩

/-- Witness for C9 amended: two builds of the same document from different
prior states produce the same store. -/
theorem c9_amended_shared_store_witness :
    ({ p0 with vector_store := some [['d', 'o', 'c']] } :
        DocumentProcessor).vector_store =
      ({ p_down with vector_store := some [['d', 'o', 'c']] } :
        DocumentProcessor).vector_store :=
  (c9_amended_shared_store fetch_ok parse_doc p0 p_down "u" rfl rfl).1

/-- Helper for C10: an operation step never erases the vector_store
attribute; it can only be absent afterwards if it was absent before. -/
theorem step_store_none (fetch : String → Except String Bytes)
    (parsePdf : Bytes → Except String (List (List Char)))
    (p : DocumentProcessor) (op : Op)
    (h : (step fetch parsePdf p op).vector_store = none) :
    p.vector_store = none := by
  cases op with
  | answer qs => exact h
  | build url =>
    cases hc : create_vector_store fetch parsePdf p url with
    | error e => simpa [step, hc] using h
    | ok p1 =>
      obtain ⟨t, hl, hne, hp1⟩ :=
        (create_vector_store_ok_iff fetch parsePdf p p1 url).mp hc
      subst hp1
      simp [step, hc] at h

/-- Helper for C10: once the store attribute is present it stays present
through any trace of operations. -/
theorem run_keeps_store (fetch : String → Except String Bytes)
    (parsePdf : Bytes → Except String (List (List Char))) (ops : List Op) :
    ∀ p : DocumentProcessor, p.vector_store ≠ none →
      (run fetch parsePdf p ops).vector_store ≠ none := by
  induction ops with
  | nil =>
    intro p h
    simpa [run] using h
  | cons op ops ih =>
    intro p h
    simp only [run]
    exact ih _ fun hstep => h (step_store_none fetch parsePdf p op hstep)

/-- C10: the vector_store attribute, once set by a successful build, is
never removed; starting from the fresh singleton the store is absent
exactly when every build so far failed (so the missing-store ValueError can
only arise when no build ever succeeded); and a request whose own build
fails silently answers against whatever store the shared processor already
holds. -/
theorem c10_store_persists (fetch : String → Except String Bytes)
    (parsePdf : Bytes → Except String (List (List Char))) :
    (∀ (p : DocumentProcessor) (op : Op),
      (step fetch parsePdf p op).vector_store = none → p.vector_store = none) ∧
    (∀ (q0 : DocumentProcessor) (ops : List Op), q0.vector_store = none →
      ((run fetch parsePdf q0 ops).vector_store = none ↔
        all_builds_failed fetch parsePdf q0 ops)) ∧
    (∀ (p : DocumentProcessor) (vs : VectorStore) (url : String)
        (qs : List String),
      p.vector_store = some vs →
      (∀ p1, create_vector_store fetch parsePdf p url ≠ Except.ok p1) →
      answer_questions (step fetch parsePdf p (Op.build url)) qs =
        answer_loop (retrieval_chain p.retrieve p.llm vs) qs) := by
  refine ⟨step_store_none fetch parsePdf, ?_, ?_⟩
  · intro q0 ops
    induction ops generalizing q0 with
    | nil =>
      intro h0
      simp [run, all_builds_failed, h0]
    | cons op ops ih =>
      intro h0
      cases op with
      | answer qs =>
        have hstep : step fetch parsePdf q0 (Op.answer qs) = q0 := rfl
        simp only [run, hstep, all_builds_failed]
        rw [ih q0 h0]
        simp
      | build url =>
        cases hc : create_vector_store fetch parsePdf q0 url with
        | error e =>
          have hstep : step fetch parsePdf q0 (Op.build url) = q0 := by
            simp [step, hc]
          simp only [run, hstep, all_builds_failed]
          rw [ih q0 h0]
          constructor
          · intro hrest
            refine ⟨?_, hrest⟩
            intro url2 p1 heq
            cases heq
            simp [hc]
          · exact fun h => h.2
        | ok p1 =>
          obtain ⟨t, hl, hne, hp1⟩ :=
            (create_vector_store_ok_iff fetch parsePdf q0 p1 url).mp hc
          have hstep : step fetch parsePdf q0 (Op.build url) = p1 := by
            simp [step, hc]
          have hsome : p1.vector_store ≠ none := by
            subst hp1
            simp
          simp only [run, hstep, all_builds_failed]
          constructor
          · intro hnone
            exact absurd hnone (run_keeps_store fetch parsePdf ops p1 hsome)
          · intro hfail
            exact absurd hc (hfail.1 url p1 rfl)
  · intro p vs url qs hvs hfail
    cases hc : create_vector_store fetch parsePdf p url with
    | ok p1 => exact absurd hc (hfail p1)
    | error e =>
      have hstep : step fetch parsePdf p (Op.build url) = p := by
        simp [step, hc]
      rw [hstep]
      simp [answer_questions, hvs]

/-- Witness for C10: after one failing build on the fresh singleton the
store is still absent, which matches all builds having failed. -/
theorem c10_store_persists_witness :
    (run fetch_down parse_doc p0 [Op.build "u"]).vector_store = none ↔
      all_builds_failed fetch_down parse_doc p0 [Op.build "u"] :=
  (c10_store_persists fetch_down parse_doc).2.1 p0 [Op.build "u"] rfl

end Pipeline
